import Mathlib

/-!
Verification of the state-aggregation and broadcast hub of
`rpi-simple-debugger` (`src/rpi_simple_debugger/engine.py`,
`models.py`, `config.py`, `app.py`).

Python floats are modelled as exact rationals (`ℚ`), `datetime`
timestamps as natural numbers, and Python dictionaries as functions
into `Option`.  `Dict[str, Any]` payloads of custom entries are
modelled as opaque association lists of strings.
-/

namespace RpiDebugger

/-- Opaque model of a `Dict[str, Any]` payload carried through unchanged. -/
abbrev Payload := List (String × String)

/-- `models.GPIOState`: one reading for one pin. -/
structure GPIOState where
  pin : Int
  value : Int
  label : Option String := none
  mode : String := "in"
  pull : String := "none"
  timestamp : Nat
deriving DecidableEq, Repr

/-- `models.WiFiStatus`. -/
structure WiFiStatus where
  connected : Bool
  ssid : Option String := none
  ip_address : Option String := none
  signal_level_dbm : Option Int := none
  timestamp : Nat
deriving DecidableEq, Repr

/-- `models.BluetoothStatus`. -/
structure BluetoothStatus where
  powered : Bool
  connected : Bool
  timestamp : Nat
deriving DecidableEq, Repr

/-- `models.SystemHealth`: one system-metrics sample. -/
structure SystemHealth where
  cpu_temp_c : Option ℚ := none
  cpu_percent : ℚ
  disk_used_percent : ℚ
  memory_percent : Option ℚ := none
  swap_percent : Option ℚ := none
  load_1 : Option ℚ := none
  load_5 : Option ℚ := none
  load_15 : Option ℚ := none
  uptime_s : Option ℚ := none
  boot_time : Option ℚ := none
  process_count : Option Int := none
  timestamp : Nat
deriving DecidableEq, Repr

/-- `models.HealthSummary`: the four derived flags, all false by default. -/
structure HealthSummary where
  cpu_hot : Bool := false
  disk_low : Bool := false
  memory_high : Bool := false
  wifi_poor : Bool := false
deriving DecidableEq, Repr

/-- `models.BoardInfo`. -/
structure BoardInfo where
  name : Option String := none
  revision : Option String := none
  serial : Option String := none
  cpu_arch : Option String := none
  os : Option String := none
deriving DecidableEq, Repr

/-- `models.AppInfo`. -/
structure AppInfo where
  debugger_version : String
  python_version : String
deriving DecidableEq, Repr

/-- `models.NetInterfaceStats`: counters of one network interface. -/
structure NetInterfaceStats where
  name : String
  is_up : Bool
  rx_bytes : Nat
  tx_bytes : Nat
  rx_errs : Nat
  tx_errs : Nat
deriving DecidableEq, Repr

/-- `models.CustomEntry`: a caller-supplied named payload. -/
structure CustomEntry where
  name : String
  payload : Payload
  timestamp : Nat
deriving DecidableEq, Repr

/-- `models.GPIOPinDefinition`: static schema entry for a monitored pin. -/
structure GPIOPinDefinition where
  pin : Int
  label : Option String := none
  mode : String := "in"
  pull : String := "none"
deriving DecidableEq, Repr

/-- `models.DebuggerSnapshot`: the single aggregate of the latest reading per
subsystem.  The Python `Dict[int, GPIOState]`, `Dict[str, CustomEntry]` and
`Dict[int, GPIOPinDefinition]` are modelled as functions into `Option`. -/
structure DebuggerSnapshot where
  gpio : Int → Option GPIOState
  wifi : Option WiFiStatus := none
  bluetooth : Option BluetoothStatus := none
  system : Option SystemHealth := none
  custom : String → Option CustomEntry
  interfaces : List NetInterfaceStats := []
  health : HealthSummary := {}
  gpio_schema : Int → Option GPIOPinDefinition
  board : Option BoardInfo := none
  app : AppInfo

/-- `config.DebuggerSettings`: configuration consumed by the engine,
including the four documented health thresholds. -/
structure DebuggerSettings where
  gpio_enabled : Bool := true
  wifi_enabled : Bool := true
  bluetooth_enabled : Bool := true
  system_health_enabled : Bool := true
  gpio_poll_interval_s : ℚ := 1/10
  network_poll_interval_s : ℚ := 2
  system_poll_interval_s : ℚ := 2
  cpu_temp_threshold_c : ℚ := 80
  disk_usage_threshold_percent : ℚ := 90
  memory_usage_threshold_percent : ℚ := 90
  wifi_signal_threshold_dbm : Int := -75
deriving DecidableEq, Repr

/-- The `type` tag of `models.DebuggerMessage`, the code's
`Literal["gpio", "wifi", "bluetooth", "system", "custom", "meta"]`.
Note there is no `interfaces` tag. -/
inductive MsgType where
  | gpio
  | wifi
  | bluetooth
  | system
  | custom
  | meta
deriving DecidableEq, Repr

/-- The `data` field of a `DebuggerMessage`: the serialized reading
(`model_dump`) that the corresponding update method attaches. -/
inductive MsgData where
  | gpioD (s : GPIOState)
  | wifiD (w : WiFiStatus)
  | bluetoothD (b : BluetoothStatus)
  | systemD (h : SystemHealth)
  | customD (e : CustomEntry)
  | metaD
deriving DecidableEq, Repr

/-- `models.DebuggerMessage`: a broadcast message tagged by field kind. -/
structure DebuggerMessage where
  type : MsgType
  data : MsgData
deriving DecidableEq, Repr

/-- `engine.DebuggerEngine`: settings plus the owned mutable snapshot
(`_snapshot`). -/
structure DebuggerEngine where
  settings : DebuggerSettings
  snapshot : DebuggerSnapshot

/-- The snapshot built by `DebuggerEngine.__init__`: everything empty or
default, board and app as detected at startup. -/
def initialSnapshot (app : AppInfo) (board : Option BoardInfo) : DebuggerSnapshot :=
  { gpio := fun _ => none
    custom := fun _ => none
    gpio_schema := fun _ => none
    board := board
    app := app }

/-- `DebuggerEngine.__init__`. -/
def mkEngine (settings : DebuggerSettings) (app : AppInfo)
    (board : Option BoardInfo) : DebuggerEngine :=
  { settings := settings, snapshot := initialSnapshot app board }

/-- `DebuggerEngine._update_health_summary`: rebuilds a fresh
`HealthSummary` from the snapshot's current `system` and `wifi` fields.
The thresholds are the literal constants `80.0`, `90.0`, `90.0` and `-75`
hard-coded in `engine.py` lines 161-175; `self.settings` is not consulted. -/
def updateHealthSummaryField (snap : DebuggerSnapshot) : DebuggerSnapshot :=
  let h0 : HealthSummary := {}
  let h1 : HealthSummary :=
    match snap.system with
    | some sys =>
        { cpu_hot :=
            match sys.cpu_temp_c with
            | some t => decide (t > (80 : ℚ))
            | none => h0.cpu_hot
          disk_low := decide (sys.disk_used_percent > (90 : ℚ))
          memory_high :=
            match sys.memory_percent with
            | some m => decide (m > (90 : ℚ))
            | none => h0.memory_high
          wifi_poor := h0.wifi_poor }
    | none => h0
  let h2 : HealthSummary :=
    match snap.wifi with
    | some w =>
        { h1 with
          wifi_poor :=
            match w.signal_level_dbm with
            | some s => decide (s < (-75 : Int))
            | none => h1.wifi_poor }
    | none => h1
  { snap with health := h2 }

/-- `DebuggerEngine.update_gpio`: upsert the pin's entry and broadcast one
`gpio` message. -/
def update_gpio (e : DebuggerEngine) (state : GPIOState) :
    DebuggerEngine × List DebuggerMessage :=
  ({ e with snapshot :=
      { e.snapshot with
        gpio := Function.update e.snapshot.gpio state.pin (some state) } },
   [{ type := MsgType.gpio, data := MsgData.gpioD state }])

/-- `DebuggerEngine.update_wifi`: replace the wifi field, recompute health,
broadcast one `wifi` message. -/
def update_wifi (e : DebuggerEngine) (status : WiFiStatus) :
    DebuggerEngine × List DebuggerMessage :=
  ({ e with snapshot :=
      updateHealthSummaryField { e.snapshot with wifi := some status } },
   [{ type := MsgType.wifi, data := MsgData.wifiD status }])

/-- `DebuggerEngine.update_bluetooth`: replace the bluetooth field and
broadcast one `bluetooth` message. -/
def update_bluetooth (e : DebuggerEngine) (status : BluetoothStatus) :
    DebuggerEngine × List DebuggerMessage :=
  ({ e with snapshot := { e.snapshot with bluetooth := some status } },
   [{ type := MsgType.bluetooth, data := MsgData.bluetoothD status }])

/-- `DebuggerEngine.update_system`: replace the system field, recompute
health, broadcast one `system` message. -/
def update_system (e : DebuggerEngine) (health : SystemHealth) :
    DebuggerEngine × List DebuggerMessage :=
  ({ e with snapshot :=
      updateHealthSummaryField { e.snapshot with system := some health } },
   [{ type := MsgType.system, data := MsgData.systemD health }])

/-- `DebuggerEngine.update_interfaces`: replace the whole interfaces list.
The code broadcasts nothing here ("No separate broadcast for interfaces"). -/
def update_interfaces (e : DebuggerEngine) (interfaces : List NetInterfaceStats) :
    DebuggerEngine × List DebuggerMessage :=
  ({ e with snapshot := { e.snapshot with interfaces := interfaces } }, [])

/-- `DebuggerEngine.push_custom`: build a `CustomEntry` stamped with the
current time (`datetime.utcnow`, passed here explicitly as `now`), upsert it
by name and broadcast one `custom` message. -/
def push_custom (e : DebuggerEngine) (name : String) (payload : Payload)
    (now : Nat) : DebuggerEngine × List DebuggerMessage :=
  let entry : CustomEntry := { name := name, payload := payload, timestamp := now }
  ({ e with snapshot :=
      { e.snapshot with
        custom := Function.update e.snapshot.custom name (some entry) } },
   [{ type := MsgType.custom, data := MsgData.customD entry }])

/-- Thresholds record of the spec's Health Deriver (§4.2). -/
structure Thresholds where
  cpuTempC : ℚ
  diskUsedPercent : ℚ
  memoryUsedPercent : ℚ
  wirelessSignalDbm : Int
deriving DecidableEq, Repr

/-- The spec's default thresholds: 80 °C, 90 %, 90 %, −75 dBm. -/
def defaultThresholds : Thresholds :=
  { cpuTempC := 80, diskUsedPercent := 90, memoryUsedPercent := 90
    wirelessSignalDbm := -75 }

/-- The spec's pure Health Deriver (§4.2):
`derive(systemHealth, wirelessStatus, thresholds) → HealthFlags`; a flag
whose required field is absent, or whose source sample has never arrived,
is false. -/
def derive (sys : Option SystemHealth) (wifi : Option WiFiStatus)
    (t : Thresholds) : HealthSummary :=
  { cpu_hot :=
      match sys with
      | some s =>
          match s.cpu_temp_c with
          | some c => decide (c > t.cpuTempC)
          | none => false
      | none => false
    disk_low :=
      match sys with
      | some s => decide (s.disk_used_percent > t.diskUsedPercent)
      | none => false
    memory_high :=
      match sys with
      | some s =>
          match s.memory_percent with
          | some m => decide (m > t.memoryUsedPercent)
          | none => false
      | none => false
    wifi_poor :=
      match wifi with
      | some w =>
          match w.signal_level_dbm with
          | some l => decide (l < t.wirelessSignalDbm)
          | none => false
      | none => false }

/-- A message as an observer's channel sees it: either the raw full-snapshot
document `{"type": "snapshot", "data": ...}` sent directly by the websocket
endpoint in `app.py`, or a `DebuggerMessage` delivered by
`ConnectionManager.broadcast`. -/
inductive WireMsg where
  | snapshotMsg (s : DebuggerSnapshot)
  | msg (m : DebuggerMessage)

/-- True of incremental update messages, false of the full-snapshot one. -/
def WireMsg.isUpdate : WireMsg → Bool
  | .snapshotMsg _ => false
  | .msg _ => true

/-- One connected websocket observer.  `broken` models a channel on which
`send_json` raises; `received` is the log of messages the observer has
received in order. -/
structure HubObserver where
  id : Nat
  broken : Bool
  received : List WireMsg

/-- Sending on a socket: returns the socket with the message appended to its
log, or `none` when the send raises (broken channel). -/
def sendJson (ws : HubObserver) (m : WireMsg) : Option HubObserver :=
  if ws.broken then none else some { ws with received := ws.received ++ [m] }

/-- `engine.ConnectionManager`: the registry of active websockets. -/
structure ConnectionManager where
  active : List HubObserver

/-- `ConnectionManager.broadcast`: sends the message to every active socket,
collecting the sockets whose send raised, then disconnects exactly those.
On immutable observer records this two-phase loop amounts to: every socket
whose send succeeds stays, with the message appended to its log, and every
socket whose send raised is removed. -/
def ConnectionManager.broadcast (mgr : ConnectionManager)
    (m : DebuggerMessage) : ConnectionManager :=
  { active := mgr.active.filterMap (fun ws => sendJson ws (WireMsg.msg m)) }

/-- `ConnectionManager.connect`: accept the socket and append it. -/
def ConnectionManager.connect (mgr : ConnectionManager)
    (ws : HubObserver) : ConnectionManager :=
  { active := mgr.active ++ [ws] }

/-! ## The websocket endpoint and the hub as a transition system

`app.websocket_endpoint` registers a socket via `manager.connect` and then
immediately sends it the full current snapshot; if that send raises, the
socket is disconnected again before it ever receives anything.  Because no
other coroutine runs between the registry append and the snapshot send being
enqueued, the pair acts as one atomic step of the event loop.  Updates from
monitor threads are serialized onto the same loop by
`run_coroutine_threadsafe`, so a run of the hub is a sequence of these
atomic events. -/

/-- One serialized event of the hub's event loop. -/
inductive HubEvent where
  | connect (id : Nat) (broken : Bool)
  | gpioEv (st : GPIOState)
  | wifiEv (w : WiFiStatus)
  | bluetoothEv (b : BluetoothStatus)
  | systemEv (h : SystemHealth)
  | interfacesEv (l : List NetInterfaceStats)
  | customEv (name : String) (payload : Payload) (now : Nat)

/-- Hub state: the engine plus its connection manager. -/
structure HubState where
  engine : DebuggerEngine
  manager : ConnectionManager

/-- `app.websocket_endpoint` registration: connect, then send the full
current snapshot; on failure (broken socket) disconnect the socket again. -/
def hubConnect (st : HubState) (id : Nat) (broken : Bool) : HubState :=
  if broken then
    st
  else
    let ws : HubObserver :=
      { id := id, broken := false
        received := [WireMsg.snapshotMsg st.engine.snapshot] }
    { st with manager := st.manager.connect ws }

/-- Apply one engine update and broadcast the messages it produced. -/
def hubApply (st : HubState)
    (upd : DebuggerEngine → DebuggerEngine × List DebuggerMessage) : HubState :=
  let r := upd st.engine
  { engine := r.1, manager := r.2.foldl ConnectionManager.broadcast st.manager }

/-- One step of the hub's serialized event loop. -/
def stepEvent (st : HubState) (e : HubEvent) : HubState :=
  match e with
  | .connect id broken => hubConnect st id broken
  | .gpioEv g => hubApply st (fun en => update_gpio en g)
  | .wifiEv w => hubApply st (fun en => update_wifi en w)
  | .bluetoothEv b => hubApply st (fun en => update_bluetooth en b)
  | .systemEv h => hubApply st (fun en => update_system en h)
  | .interfacesEv l => hubApply st (fun en => update_interfaces en l)
  | .customEv n p now => hubApply st (fun en => push_custom en n p now)

/-- Run the hub over a sequence of serialized events. -/
def runHub (st : HubState) (es : List HubEvent) : HubState :=
  es.foldl stepEvent st

/-- The message log of the observer with the given id (empty when absent). -/
def receivedOf (mgr : ConnectionManager) (id : Nat) : List WireMsg :=
  match mgr.active.find? (fun ws => ws.id == id) with
  | some ws => ws.received
  | none => []

/-! ## Reference semantics of the snapshot accessor

`DebuggerEngine.snapshot` is a bare property returning `self._snapshot`
itself, not a copy.  To express aliasing we model a heap of snapshot
objects: the engine holds a reference into the heap, the property returns
that reference, and the update methods mutate the object in place. -/

/-- A heap of snapshot objects addressed by `Nat`. -/
structure PyHeap where
  objs : Nat → DebuggerSnapshot

/-- Read the object stored at a reference. -/
def deref (h : PyHeap) (r : Nat) : DebuggerSnapshot := h.objs r

/-- The engine as it lives in the heap: it holds a reference to its
`_snapshot` object. -/
structure EngineRef where
  snapRef : Nat

/-- The `snapshot` property of `engine.py` lines 75-77: it returns
`self._snapshot`, i.e. the reference itself, performing no copy. -/
def snapshotProp (e : EngineRef) : Nat := e.snapRef

/-- The pure effect of `update_gpio` on the snapshot object. -/
def applyGpio (s : DebuggerSnapshot) (st : GPIOState) : DebuggerSnapshot :=
  { s with gpio := Function.update s.gpio st.pin (some st) }

/-- `update_gpio` as the heap sees it: `self._snapshot.gpio[state.pin] = state`
mutates the snapshot object the engine's reference points to. -/
def updateGpioHeap (h : PyHeap) (e : EngineRef) (st : GPIOState) : PyHeap :=
  { objs := Function.update h.objs e.snapRef (applyGpio (h.objs e.snapRef) st) }

/-! ## Concrete inputs used by counterexamples and witnesses -/

/-- A default engine at startup, with concrete app info and no board. -/
def engine0 : DebuggerEngine :=
  mkEngine {} { debugger_version := "0.1.0", python_version := "3.11.0" } none

/-- A pin-17 reading stored first, with timestamp 5. -/
def c1Stored : GPIOState := { pin := 17, value := 0, timestamp := 5 }

/-- A pin-17 reading submitted later but observed earlier (timestamp 3). -/
def c1Stale : GPIOState := { pin := 17, value := 1, timestamp := 3 }

/-- The engine after the timestamp-5 reading was applied. -/
def c1Engine : DebuggerEngine := (update_gpio engine0 c1Stored).1

/-! ## Theorems -/

/-- Helper: the recomputation done by `_update_health_summary` agrees with
the spec's pure Health Deriver at the default thresholds, on the snapshot's
own current `system` and `wifi` fields. -/
theorem updateHealthSummaryField_eq_derive (snap : DebuggerSnapshot) :
    (updateHealthSummaryField snap).health =
      derive snap.system snap.wifi defaultThresholds := by
  unfold updateHealthSummaryField derive defaultThresholds
  cases hs : snap.system with
  | none =>
      cases hw : snap.wifi with
      | none => rfl
      | some w => cases w.signal_level_dbm <;> rfl
  | some sys =>
      cases hw : snap.wifi with
      | none => cases sys.cpu_temp_c <;> cases sys.memory_percent <;> rfl
      | some w =>
          cases sys.cpu_temp_c <;> cases sys.memory_percent <;>
            cases w.signal_level_dbm <;> rfl

/-- C1 counterexample: with a pin-17 reading of timestamp 5 stored, applying
a pin-17 reading of timestamp 3 (strictly older) is not discarded: the
snapshot is overwritten with the older reading and a broadcast message is
still produced, contradicting the claimed stale-reading discard. -/
theorem c1_stale_reading_not_discarded :
    c1Engine.snapshot.gpio 17 = some c1Stored ∧
    c1Stale.timestamp < c1Stored.timestamp ∧
    (update_gpio c1Engine c1Stale).1.snapshot.gpio 17 = some c1Stale ∧
    (update_gpio c1Engine c1Stale).2 =
      [{ type := MsgType.gpio, data := MsgData.gpioD c1Stale }] := by
  refine ⟨?_, by decide, ?_, rfl⟩ <;>
    simp [c1Engine, engine0, mkEngine, initialSnapshot, update_gpio,
      Function.update, c1Stored, c1Stale]

/-- C1 amended: no update path consults `observedAt` at all — every update
operation stores the incoming reading unconditionally (last submission wins)
and the timestamped readings can overwrite strictly newer stored ones. -/
theorem c1_updates_overwrite_unconditionally (e : DebuggerEngine)
    (g : GPIOState) (w : WiFiStatus) (b : BluetoothStatus) (h : SystemHealth)
    (n : String) (p : Payload) (now : Nat) :
    (update_gpio e g).1.snapshot.gpio g.pin = some g ∧
    (update_wifi e w).1.snapshot.wifi = some w ∧
    (update_bluetooth e b).1.snapshot.bluetooth = some b ∧
    (update_system e h).1.snapshot.system = some h ∧
    (push_custom e n p now).1.snapshot.custom n =
      some { name := n, payload := p, timestamp := now } := by
  refine ⟨?_, rfl, rfl, rfl, ?_⟩ <;>
    simp [update_gpio, push_custom, Function.update_same]

/-- C2: immediately after `update_wifi` or `update_system` returns, the
snapshot's health flags equal the pure Health Deriver applied to the
snapshot's post-update `system` and `wifi` pair — all four flags recomputed
from scratch, never from an older pairing of the two fields. -/
theorem c2_health_flags_fresh (e : DebuggerEngine) (w : WiFiStatus)
    (h : SystemHealth) :
    ((update_wifi e w).1.snapshot.health =
      derive (update_wifi e w).1.snapshot.system
        (update_wifi e w).1.snapshot.wifi defaultThresholds) ∧
    ((update_system e h).1.snapshot.health =
      derive (update_system e h).1.snapshot.system
        (update_system e h).1.snapshot.wifi defaultThresholds) := by
  constructor <;>
    exact updateHealthSummaryField_eq_derive _

/-- Settings used by the repository's own test
`test_engine_health_flags_hot_cpu`: a configured CPU threshold of 70 °C. -/
def c3Settings : DebuggerSettings := { cpu_temp_threshold_c := 70 }

/-- Engine built with the non-default threshold settings. -/
def c3Engine : DebuggerEngine :=
  mkEngine c3Settings { debugger_version := "0.1.0", python_version := "3.11.0" } none

/-- The sample of that test: CPU at 75 °C, above the configured 70 °C. -/
def c3Sample : SystemHealth :=
  { cpu_temp_c := some 75, cpu_percent := 50, disk_used_percent := 50
    timestamp := 0 }

/-- The thresholds record carried by an engine's settings. -/
def settingsThresholds (s : DebuggerSettings) : Thresholds :=
  { cpuTempC := s.cpu_temp_threshold_c
    diskUsedPercent := s.disk_usage_threshold_percent
    memoryUsedPercent := s.memory_usage_threshold_percent
    wirelessSignalDbm := s.wifi_signal_threshold_dbm }

/-- C3: `_update_health_summary` compares against the hard-coded constants
80/90/90/−75, not the engine's configured settings.  With the configured
70 °C threshold and a 75 °C sample — the exact input of the repository's
own test `test_engine_health_flags_hot_cpu`, which asserts
`cpu_hot is True` — the code leaves `cpu_hot` false, while the configured
derivation (and the test) require true. -/
theorem c3_configured_thresholds_ignored :
    (update_system c3Engine c3Sample).1.snapshot.health.cpu_hot = false ∧
    c3Engine.settings.cpu_temp_threshold_c < 75 ∧
    (derive (some c3Sample) none
      (settingsThresholds c3Engine.settings)).cpu_hot = true := by
  refine ⟨?_, by decide, by decide⟩
  decide

/-- Concrete sample with `disk_used_percent = 90.000001` and every optional
health input absent. -/
def c4SampleHigh : SystemHealth :=
  { cpu_percent := 0, disk_used_percent := 90000001/1000000, timestamp := 0 }

/-- Concrete sample with `disk_used_percent = 90.0` exactly. -/
def c4SampleEdge : SystemHealth :=
  { cpu_percent := 0, disk_used_percent := 90, timestamp := 0 }

/-- C4: after `update_system`, `disk_low` is true exactly when
`disk_used_percent` is strictly greater than the default 90.0 threshold, and
any flag whose required input is absent — `cpu_temp_c`, `memory_percent`, or
a wifi signal level that is absent or whose status never arrived — is
false. -/
theorem c4_disk_strict_absent_false (e : DebuggerEngine) (h : SystemHealth) :
    ((update_system e h).1.snapshot.health.disk_low =
      decide (h.disk_used_percent > (90 : ℚ))) ∧
    (h.cpu_temp_c = none →
      (update_system e h).1.snapshot.health.cpu_hot = false) ∧
    (h.memory_percent = none →
      (update_system e h).1.snapshot.health.memory_high = false) ∧
    (Option.bind e.snapshot.wifi WiFiStatus.signal_level_dbm = none →
      (update_system e h).1.snapshot.health.wifi_poor = false) := by
  rw [show (update_system e h).1.snapshot =
      updateHealthSummaryField { e.snapshot with system := some h } from rfl]
  rw [updateHealthSummaryField_eq_derive]
  refine ⟨rfl, ?_, ?_, ?_⟩
  · intro hc
    simp [derive, hc]
  · intro hm
    simp [derive, hm]
  · intro hw
    cases hwifi : e.snapshot.wifi with
    | none => simp [derive, hwifi]
    | some w =>
        rw [hwifi] at hw
        simp only [Option.bind] at hw
        simp [derive, hwifi, hw]

/-- C4 witness: instantiating `c4_disk_strict_absent_false` on the default
engine with the boundary samples 90.000001 (flag true) and exactly 90.0
(flag false), all optional inputs absent. -/
theorem c4_disk_strict_absent_false_witness :
    c4SampleHigh.cpu_temp_c = none ∧
    c4SampleHigh.memory_percent = none ∧
    Option.bind engine0.snapshot.wifi WiFiStatus.signal_level_dbm = none ∧
    (update_system engine0 c4SampleHigh).1.snapshot.health.disk_low =
      decide (c4SampleHigh.disk_used_percent > (90 : ℚ)) ∧
    decide (c4SampleHigh.disk_used_percent > (90 : ℚ)) = true ∧
    (update_system engine0 c4SampleHigh).1.snapshot.health.cpu_hot = false ∧
    (update_system engine0 c4SampleHigh).1.snapshot.health.memory_high = false ∧
    (update_system engine0 c4SampleHigh).1.snapshot.health.wifi_poor = false ∧
    (update_system engine0 c4SampleEdge).1.snapshot.health.disk_low =
      decide (c4SampleEdge.disk_used_percent > (90 : ℚ)) ∧
    decide (c4SampleEdge.disk_used_percent > (90 : ℚ)) = false :=
  ⟨rfl, rfl, rfl,
   (c4_disk_strict_absent_false engine0 c4SampleHigh).1,
   by norm_num [c4SampleHigh],
   (c4_disk_strict_absent_false engine0 c4SampleHigh).2.1 rfl,
   (c4_disk_strict_absent_false engine0 c4SampleHigh).2.2.1 rfl,
   (c4_disk_strict_absent_false engine0 c4SampleHigh).2.2.2 rfl,
   (c4_disk_strict_absent_false engine0 c4SampleEdge).1,
   by norm_num [c4SampleEdge]⟩

/-- A concrete interface-counters reading. -/
def c5Iface : NetInterfaceStats :=
  { name := "eth0", is_up := true, rx_bytes := 10, tx_bytes := 20
    rx_errs := 0, tx_errs := 0 }

/-- C5 counterexample: applying a set of interface counters produces zero
broadcast notifications, not exactly one — `update_interfaces` returns
without broadcasting, and the message `type` literal has no `interfaces`
tag at all. -/
theorem c5_interfaces_update_not_broadcast :
    ((update_interfaces engine0 [c5Iface]).2.length = 1 → False) ∧
    (update_interfaces engine0 [c5Iface]).1.snapshot.interfaces = [c5Iface] := by
  exact ⟨by decide, rfl⟩

/-- C5 amended: every successful apply of a gpio, wifi, bluetooth, system or
custom reading triggers exactly one broadcast, tagged with that field's kind
and carrying the field's new value; an interface-counters update triggers no
broadcast (interfaces are only visible through the full snapshot). -/
theorem c5_one_broadcast_per_update_except_interfaces (e : DebuggerEngine)
    (g : GPIOState) (w : WiFiStatus) (b : BluetoothStatus) (h : SystemHealth)
    (l : List NetInterfaceStats) (n : String) (p : Payload) (now : Nat) :
    (update_gpio e g).2 = [{ type := MsgType.gpio, data := MsgData.gpioD g }] ∧
    (update_wifi e w).2 = [{ type := MsgType.wifi, data := MsgData.wifiD w }] ∧
    (update_bluetooth e b).2 =
      [{ type := MsgType.bluetooth, data := MsgData.bluetoothD b }] ∧
    (update_system e h).2 =
      [{ type := MsgType.system, data := MsgData.systemD h }] ∧
    (push_custom e n p now).2 =
      [{ type := MsgType.custom
         data := MsgData.customD { name := n, payload := p, timestamp := now } }] ∧
    (update_interfaces e l).2 = [] :=
  ⟨rfl, rfl, rfl, rfl, rfl, rfl⟩

/-- C8 counterexample: the `snapshot` property returns the engine's live
`_snapshot` reference; after a subsequent `update_gpio`, the value seen
through the previously returned reference has changed (pin 17 appears),
contradicting the claim that previously returned snapshots are unchanged. -/
theorem c8_snapshot_not_immutable_copy :
    deref (updateGpioHeap { objs := fun _ => engine0.snapshot } { snapRef := 0 } c1Stored)
        (snapshotProp { snapRef := 0 }) ≠
      deref { objs := fun _ => engine0.snapshot } (snapshotProp { snapRef := 0 }) := by
  intro hcontra
  have h17 := congrArg (fun s => s.gpio 17) hcontra
  simp [deref, updateGpioHeap, snapshotProp, applyGpio, Function.update,
    engine0, mkEngine, initialSnapshot, c1Stored] at h17

/-- C8 amended: the `snapshot` property returns the live mutable snapshot
instance, not a copy — after any later `update_gpio`, dereferencing a
previously returned snapshot reference yields the updated snapshot, i.e.
readers holding the returned value observe subsequent mutations. -/
theorem c8_snapshot_returns_live_reference (h : PyHeap) (e : EngineRef)
    (st : GPIOState) :
    deref (updateGpioHeap h e st) (snapshotProp e) =
      applyGpio (deref h (snapshotProp e)) st := by
  simp [deref, updateGpioHeap, snapshotProp, Function.update_same]

/-- C9: resubmitting the exact same reading (same field, same value, same
observed timestamp) twice leaves the snapshot after the second application
equal to the snapshot after the first, for every update kind. -/
theorem c9_reapply_same_reading_idempotent (e : DebuggerEngine)
    (g : GPIOState) (w : WiFiStatus) (b : BluetoothStatus) (h : SystemHealth)
    (l : List NetInterfaceStats) (n : String) (p : Payload) (now : Nat) :
    (update_gpio (update_gpio e g).1 g).1 = (update_gpio e g).1 ∧
    (update_wifi (update_wifi e w).1 w).1 = (update_wifi e w).1 ∧
    (update_bluetooth (update_bluetooth e b).1 b).1 = (update_bluetooth e b).1 ∧
    (update_system (update_system e h).1 h).1 = (update_system e h).1 ∧
    (update_interfaces (update_interfaces e l).1 l).1 = (update_interfaces e l).1 ∧
    (push_custom (push_custom e n p now).1 n p now).1 = (push_custom e n p now).1 := by
  refine ⟨?_, rfl, rfl, rfl, rfl, ?_⟩ <;>
    simp [update_gpio, push_custom, Function.update_idem]

/-- C10: gpio, bluetooth, custom and interfaces updates never touch the
health flags — only `update_wifi` and `update_system` recompute them. -/
theorem c10_health_flags_frame (e : DebuggerEngine) (g : GPIOState)
    (b : BluetoothStatus) (l : List NetInterfaceStats) (n : String)
    (p : Payload) (now : Nat) :
    (update_gpio e g).1.snapshot.health = e.snapshot.health ∧
    (update_bluetooth e b).1.snapshot.health = e.snapshot.health ∧
    (update_interfaces e l).1.snapshot.health = e.snapshot.health ∧
    (push_custom e n p now).1.snapshot.health = e.snapshot.health :=
  ⟨rfl, rfl, rfl, rfl⟩

/-- Helper: the net effect of `ConnectionManager.broadcast` on the registry —
every socket whose send raised (broken) is removed, every other socket stays
with the message appended to what it has received. -/
theorem broadcast_active_eq (l : List HubObserver) (m : DebuggerMessage) :
    (ConnectionManager.broadcast { active := l } m).active =
      (l.filter (fun ws => !ws.broken)).map
        (fun ws => { ws with received := ws.received ++ [WireMsg.msg m] }) := by
  induction l with
  | nil => rfl
  | cons hd tl ih =>
      simp only [ConnectionManager.broadcast, List.filterMap_cons] at ih ⊢
      cases hb : hd.broken with
      | true => simpa [sendJson, hb] using ih
      | false => simpa [sendJson, hb] using ih

/-- C6: during a broadcast, every registered observer whose channel works
receives the message even when delivery to other observers raises, and every
observer whose delivery raised is removed from the registry by the end of
the broadcast — so it is absent from the recipient set of any later
broadcast. -/
theorem c6_broadcast_isolates_and_prunes_failures (mgr : ConnectionManager)
    (m : DebuggerMessage) :
    (mgr.broadcast m).active =
      (mgr.active.filter (fun ws => !ws.broken)).map
        (fun ws => { ws with received := ws.received ++ [WireMsg.msg m] }) := by
  obtain ⟨l⟩ := mgr
  exact broadcast_active_eq l m

/-- The broadcast messages one hub event generates.  They depend only on the
reading carried by the event, mirroring how each update method builds its
message from its argument alone. -/
def eventMsgs : HubEvent → List DebuggerMessage
  | .connect _ _ => []
  | .gpioEv g => [{ type := MsgType.gpio, data := MsgData.gpioD g }]
  | .wifiEv w => [{ type := MsgType.wifi, data := MsgData.wifiD w }]
  | .bluetoothEv b => [{ type := MsgType.bluetooth, data := MsgData.bluetoothD b }]
  | .systemEv h => [{ type := MsgType.system, data := MsgData.systemD h }]
  | .interfacesEv _ => []
  | .customEv n p now =>
      [{ type := MsgType.custom
         data := MsgData.customD { name := n, payload := p, timestamp := now } }]

/-- All broadcast messages generated by a sequence of hub events, in order. -/
def traceMsgs : List HubEvent → List DebuggerMessage
  | [] => []
  | ev :: rest => eventMsgs ev ++ traceMsgs rest

/-- Whether an event is a registration of the given observer id. -/
def isConnectTo (id : Nat) : HubEvent → Bool
  | .connect i _ => i == id
  | _ => false

/-- The exact message log of the observer `id`: it is unbroken and has
received precisely the initial message `m0` followed by the broadcasts
`acc` made since its registration. -/
def ObsExact (mgr : ConnectionManager) (id : Nat) (m0 : WireMsg)
    (acc : List DebuggerMessage) : Prop :=
  ∀ ws ∈ mgr.active, ws.id = id →
    ws.broken = false ∧ ws.received = m0 :: acc.map WireMsg.msg

/-- One broadcast appends exactly that message to the observer's log. -/
theorem obsExact_broadcast {mgr : ConnectionManager} {id : Nat} {m0 : WireMsg}
    {acc : List DebuggerMessage} (m : DebuggerMessage)
    (h : ObsExact mgr id m0 acc) :
    ObsExact (mgr.broadcast m) id m0 (acc ++ [m]) := by
  obtain ⟨l⟩ := mgr
  intro ws hmem hid
  rw [broadcast_active_eq] at hmem
  simp only [List.mem_map, List.mem_filter] at hmem
  obtain ⟨ws0, ⟨hmem0, hnb⟩, rfl⟩ := hmem
  have h0 := h ws0 hmem0 hid
  refine ⟨h0.1, ?_⟩
  show ws0.received ++ [WireMsg.msg m] = _
  rw [h0.2]
  simp

/-- Folding a list of broadcasts appends exactly those messages. -/
theorem obsExact_broadcasts {id : Nat} {m0 : WireMsg}
    (msgs : List DebuggerMessage) :
    ∀ (mgr : ConnectionManager) (acc : List DebuggerMessage),
      ObsExact mgr id m0 acc →
      ObsExact (msgs.foldl ConnectionManager.broadcast mgr) id m0 (acc ++ msgs) := by
  induction msgs with
  | nil => intro mgr acc h; simpa using h
  | cons m rest ih =>
      intro mgr acc h
      have h3 := ih (mgr.broadcast m) (acc ++ [m]) (obsExact_broadcast m h)
      simpa [List.append_assoc] using h3

/-- One hub step that is not a registration of `id` preserves the exact-log
property, extending the log by exactly the step's broadcasts. -/
theorem obsExact_step {id : Nat} {m0 : WireMsg} {acc : List DebuggerMessage}
    (st : HubState) (ev : HubEvent)
    (hev : isConnectTo id ev = false)
    (h : ObsExact st.manager id m0 acc) :
    ObsExact (stepEvent st ev).manager id m0 (acc ++ eventMsgs ev) := by
  cases ev with
  | connect i b =>
      have hne : i ≠ id := by simpa [isConnectTo] using hev
      cases b with
      | true => simpa [stepEvent, hubConnect, eventMsgs] using h
      | false =>
          simp only [stepEvent, hubConnect, ConnectionManager.connect,
            eventMsgs, List.append_nil, if_neg, Bool.false_eq_true,
            not_false_iff]
          intro ws hmem hid
          rcases List.mem_append.mp hmem with hm | hm
          · exact h ws hm hid
          · rw [List.mem_singleton] at hm
            subst hm
            exact absurd hid hne
  | gpioEv g => exact obsExact_broadcasts (eventMsgs (.gpioEv g)) st.manager acc h
  | wifiEv w => exact obsExact_broadcasts (eventMsgs (.wifiEv w)) st.manager acc h
  | bluetoothEv b =>
      exact obsExact_broadcasts (eventMsgs (.bluetoothEv b)) st.manager acc h
  | systemEv hh =>
      exact obsExact_broadcasts (eventMsgs (.systemEv hh)) st.manager acc h
  | interfacesEv l =>
      exact obsExact_broadcasts (eventMsgs (.interfacesEv l)) st.manager acc h
  | customEv n p now =>
      exact obsExact_broadcasts (eventMsgs (.customEv n p now)) st.manager acc h

/-- Running events none of which re-register `id` preserves the exact-log
property, extending the log by exactly the trace's broadcasts. -/
theorem obsExact_run {id : Nat} {m0 : WireMsg} (es : List HubEvent) :
    ∀ (st : HubState) (acc : List DebuggerMessage),
      es.all (fun ev => !isConnectTo id ev) = true →
      ObsExact st.manager id m0 acc →
      ObsExact (runHub st es).manager id m0 (acc ++ traceMsgs es) := by
  induction es with
  | nil => intro st acc _ h; simpa [runHub, traceMsgs] using h
  | cons ev rest ih =>
      intro st acc hall h
      rw [List.all_cons, Bool.and_eq_true] at hall
      have h1 : isConnectTo id ev = false := by
        have := hall.1
        simpa using this
      have hs := obsExact_step st ev h1 h
      have h4 := ih (stepEvent st ev) (acc ++ eventMsgs ev) hall.2 hs
      simpa [runHub, traceMsgs, List.append_assoc] using h4

/-- Right after the registration event of a fresh id, the only observer with
that id (if the snapshot send did not raise) has exactly the full-snapshot
message of the registration moment in its log. -/
theorem obsExact_connect_self (st : HubState) (id : Nat) (b : Bool)
    (hfresh : st.manager.active.all (fun ws => ws.id != id) = true) :
    ObsExact (stepEvent st (.connect id b)).manager id
      (WireMsg.snapshotMsg st.engine.snapshot) [] := by
  have hfresh2 : ∀ ws ∈ st.manager.active, ws.id ≠ id := by
    intro ws hm
    have := List.all_eq_true.mp hfresh ws hm
    simpa using this
  cases b with
  | true =>
      intro ws hmem hid
      exact absurd hid (hfresh2 ws hmem)
  | false =>
      intro ws hmem hid
      simp only [stepEvent, hubConnect, ConnectionManager.connect,
        Bool.false_eq_true, if_false] at hmem
      rcases List.mem_append.mp hmem with hm | hm
      · exact absurd hid (hfresh2 ws hm)
      · rw [List.mem_singleton] at hm
        subst hm
        exact ⟨rfl, rfl⟩

/-- A hub at startup: the engine plus an empty connection registry. -/
def initHub (e0 : DebuggerEngine) : HubState :=
  { engine := e0, manager := { active := [] } }

/-- C7: for any run that registers a fresh observer id and never re-registers
it, the observer's message log at the end is either empty (its registration
send raised and it was unregistered before receiving anything) or consists of
exactly the full-snapshot message of the hub's snapshot at the moment of
registration followed, in order, by precisely the incremental broadcasts made
after its registration — so the snapshot comes first and no message broadcast
before registration is ever received. -/
theorem c7_first_message_is_registration_snapshot (e0 : DebuggerEngine)
    (pre suf : List HubEvent) (id : Nat) (b : Bool)
    (hfresh : (runHub (initHub e0) pre).manager.active.all
      (fun ws => ws.id != id) = true)
    (hsuf : suf.all (fun ev => !isConnectTo id ev) = true) :
    receivedOf (runHub (initHub e0)
        (pre ++ HubEvent.connect id b :: suf)).manager id = [] ∨
    receivedOf (runHub (initHub e0)
        (pre ++ HubEvent.connect id b :: suf)).manager id =
      WireMsg.snapshotMsg (runHub (initHub e0) pre).engine.snapshot ::
        (traceMsgs suf).map WireMsg.msg := by
  have hrun : runHub (initHub e0) (pre ++ HubEvent.connect id b :: suf) =
      runHub (stepEvent (runHub (initHub e0) pre) (.connect id b)) suf := by
    simp [runHub, List.foldl_append, List.foldl_cons]
  have h1 := obsExact_connect_self (runHub (initHub e0) pre) id b hfresh
  have h2 := obsExact_run suf _ [] hsuf h1
  rw [hrun]
  rcases hfind : (runHub (stepEvent (runHub (initHub e0) pre)
      (.connect id b)) suf).manager.active.find? (fun ws => ws.id == id) with
    _ | ws
  · left
    simp [receivedOf, hfind]
  · right
    have hmem := List.mem_of_find?_eq_some hfind
    have hpred := List.find?_some hfind
    have hid : ws.id = id := by simpa using hpred
    have h5 := h2 ws hmem hid
    simp only [receivedOf, hfind]
    simpa using h5.2

/-- A concrete wifi reading broadcast after the registration in the C7
witness run. -/
def c7Wifi : WiFiStatus :=
  { connected := true, ssid := some "TestNetwork"
    signal_level_dbm := some (-60), timestamp := 1 }

/-- C7 witness: a run with no prior observers that registers observer 0 and
then applies one wifi update; both hypotheses hold by computation and the
theorem yields the observer's exact message log. -/
theorem c7_first_message_is_registration_snapshot_witness :
    ((runHub (initHub engine0) []).manager.active.all
      (fun ws => ws.id != 0) = true) ∧
    ([HubEvent.wifiEv c7Wifi].all (fun ev => !isConnectTo 0 ev) = true) ∧
    (receivedOf (runHub (initHub engine0)
        ([] ++ HubEvent.connect 0 false :: [HubEvent.wifiEv c7Wifi])).manager 0 = [] ∨
     receivedOf (runHub (initHub engine0)
        ([] ++ HubEvent.connect 0 false :: [HubEvent.wifiEv c7Wifi])).manager 0 =
      WireMsg.snapshotMsg (runHub (initHub engine0) []).engine.snapshot ::
        (traceMsgs [HubEvent.wifiEv c7Wifi]).map WireMsg.msg) :=
  ⟨rfl, rfl,
   c7_first_message_is_registration_snapshot engine0 [] [HubEvent.wifiEv c7Wifi]
     0 false rfl rfl⟩

end RpiDebugger
